import Mathlib

/-!
Shallow embedding of `import-export-cli/operator/registry/registry.go`
(package `registry` of product-apim-tooling).

Modelling conventions, stated once here:

* Go maps (`map[int]*Registry`, `map[string]bool`, `map[string]FlagValue`)
  are embedded as association lists.  Lookup of an absent key yields the
  Go zero value (`nil` pointer modelled as `none`, `false`, the zero
  `FlagValue`).  Assignment replaces the entry in place when the key is
  present and appends otherwise.
* The fatal-error collaborator `utils.HandleErrorAndExit` (print and
  terminate with non-zero status) is embedded as the inductive `FatalMsg`:
  a function that may call it returns `Option FatalMsg` next to its
  result, `some msg` meaning the process terminated at that call site
  with the corresponding message, `none` meaning control continued.
* A Go runtime panic (nil-pointer dereference, failed interface type
  assertion) is embedded as an `Option`-valued result being `none`:
  the function has no defined outcome there, and in particular did not
  go through the fatal-error collaborator.
* The capability fields `Read` and `Run` of the Go `Registry` struct are
  functions whose implementations live outside this module; dispatching
  to them is embedded as returning a dispatch record (which descriptor
  was invoked, with which argument) rather than as stored function values.
-/

/-- One CLI flag value as resolved for the run (Go struct `FlagValue`):
the payload (`Value interface{}`, opaque to this module, embedded as a
string) and whether the user actually supplied it (`IsProvided`). -/
structure FlagValue where
  Value : String
  IsProvided : Bool
deriving Repr, DecidableEq

/-- Required and optional flag maps of a registry descriptor (Go struct
`Flags`; the two `*map[string]bool` fields are embedded as association
lists, with Go map lookup of an absent key yielding `false`). -/
structure Flags where
  RequiredFlags : List (String × Bool)
  OptionalFlags : List (String × Bool)
deriving Repr, DecidableEq

/-- A registry catalog entry (Go struct `Registry`).  The capability
fields `Read` and `Run` are not embedded as data; see the module header.
The field `flags` embeds the Go field `Flags` (renamed to avoid clashing
with the structure of that name), and `Option` is the selection key. -/
structure Registry where
  Name : String
  Caption : String
  Repository : Option String
  flags : Flags
  Option : Int
deriving Repr, DecidableEq

/-- The messages of the fatal-error collaborator: each constructor is one
`utils.HandleErrorAndExit` call site in the module, together with the data
interpolated into its message text. -/
inductive FatalMsg where
  /-- Message text: Required flag is missing in batch mode. Flag: flg -/
  | requiredFlagMissing (flg : String)
  /-- Message text: Invalid, not supported flag found in batch mode. Flag: flg -/
  | notSupportedFlag (flg : String)
  /-- Message text: Invalid registry type: registryType -/
  | invalidRegistryType (registryType : String)
  /-- Message text: Error reading registry type -/
  | errorReadingRegistryType
  /-- Message text: Error adding registry: name (option should be positive) -/
  | optionNotPositive (name : String)
  /-- Message text: Error adding registry name (duplicate options values) -/
  | duplicateOptions (name : String)
  /-- Message text: Error reading controller-config, with the remediation
  hint to install the api operator first -/
  | readCtrlConfigFailed
  /-- Message text: Error reading controller-config (YAML decode failure) -/
  | decodeCtrlConfigFailed
  /-- Message text: Error rendering controller-config -/
  | renderCtrlConfigFailed
  /-- Message text: Error creating controller-configs -/
  | applyCtrlConfigFailed
deriving Repr, DecidableEq

/-- The process-wide mutable state of the module: the catalog
(`var registries = make(map[int]*Registry)`) and the current selection
(`var optionToExec int`). -/
structure RegistryState where
  registries : List (Int × Registry)
  optionToExec : Int
deriving Repr, DecidableEq

/-- Go map lookup `registries[k]`: `none` embeds the nil pointer an
absent key yields. -/
def lookupReg : List (Int × Registry) → Int → Option Registry
  | [], _ => none
  | p :: rest, k => if p.1 = k then some p.2 else lookupReg rest k

/-- Go map lookup on a `map[string]bool`: an absent key yields `false`. -/
def lookupBool : List (String × Bool) → String → Bool
  | [], _ => false
  | p :: rest, k => if p.1 = k then p.2 else lookupBool rest k

/-- Go map lookup on a `map[string]FlagValue`: an absent key yields the
zero value, whose `IsProvided` is `false`. -/
def lookupFlagValue : List (String × FlagValue) → String → FlagValue
  | [], _ => ⟨"", false⟩
  | p :: rest, k => if p.1 = k then p.2 else lookupFlagValue rest k

/-- Go map assignment `m[k] = v`: replace the entry when the key is
present, append otherwise. -/
def mapInsert : List (Int × Registry) → Int → Registry → List (Int × Registry)
  | [], k, v => [(k, v)]
  | p :: rest, k, v => if p.1 = k then (k, v) :: rest else p :: mapInsert rest k v

/-- Catalog registration (Go func `add`): reject a non-positive option,
then reject an occupied option slot (`registries[registry.Option] != nil`),
otherwise store the descriptor.  The returned map is unchanged on the
fatal paths. -/
def add (m : List (Int × Registry)) (registry : Registry) :
    List (Int × Registry) × Option FatalMsg :=
  if registry.Option < 1 then (m, some (.optionNotPositive registry.Name))
  else if (lookupReg m registry.Option).isSome then (m, some (.duplicateOptions registry.Name))
  else (mapInsert m registry.Option registry, none)

/-- A sequence of `add` calls starting from a given catalog; a fatal
result stops the sequence (the process terminated). -/
def addAllFrom (m : List (Int × Registry)) :
    List Registry → List (Int × Registry) × Option FatalMsg
  | [] => (m, none)
  | r :: rs =>
    match add m r with
    | (m2, none) => addAllFrom m2 rs
    | (m2, some e) => (m2, some e)

/-- A sequence of `add` calls starting from the empty catalog, the way
the catalog is built at startup. -/
def addAll (rs : List Registry) : List (Int × Registry) × Option FatalMsg :=
  addAllFrom [] rs

/-- The loop body of `SetRegistry`: scan the catalog for a descriptor
whose `Name` matches, store its option on a match, fall through to the
invalid-registry-type fatal error otherwise. -/
def setRegistryLoop (s : RegistryState) (registryType : String) :
    List (Int × Registry) → RegistryState × Option FatalMsg
  | [] => (s, some (.invalidRegistryType registryType))
  | (opt, reg) :: rest =>
    if reg.Name = registryType then ({ s with optionToExec := opt }, none)
    else setRegistryLoop s registryType rest

/-- Non-interactive selection (Go func `SetRegistry`). -/
def SetRegistry (s : RegistryState) (registryType : String) :
    RegistryState × Option FatalMsg :=
  setRegistryLoop s registryType s.registries

/-- The catalog keys sorted ascending (`sort.Ints(keys)` over the keys
collected from the `registries` map). -/
def sortedKeys (m : List (Int × Registry)) : List Int :=
  List.insertionSort (· ≤ ·) (m.map Prod.fst)

/-- The caption printed for a catalog key (`registries[key].Caption`;
the keys iterated over always come from the map, so the default branch
is never reached there). -/
def captionOf (m : List (Int × Registry)) (k : Int) : String :=
  match lookupReg m k with
  | some reg => reg.Caption
  | none => ""

/-- Interactive selection (Go func `ChooseRegistryInteractive`).  The
collaborator `utils.ReadOption` lives outside this module and is passed
in as `readOption`, applied to the bounds 1 and `len(keys)` exactly as in
the source; the returned triple is the printed lines, the state after the
call, and the fatal outcome.  On a read error the selection is untouched. -/
def ChooseRegistryInteractive (s : RegistryState)
    (readOption : Int → Int → Except String Int) :
    List String × RegistryState × Option FatalMsg :=
  let keys := sortedKeys s.registries
  let output := "Choose registry type:" ::
    keys.map (fun key => toString key ++ ": " ++ captionOf s.registries key)
  match readOption 1 (keys.length : Int) with
  | .error _ => (output, s, some .errorReadingRegistryType)
  | .ok option => (output, { s with optionToExec := option }, none)

/-- The required-flags pass of `ValidateFlags`: iterate the required-flags
map; a flag marked required whose `FlagValue` in the run (zero value when
absent) has `IsProvided == false` is a fatal missing-flag error. -/
def checkRequiredFlags : List (String × Bool) → List (String × FlagValue) →
    Except FatalMsg Unit
  | [], _ => .ok ()
  | (flg, flgRequired) :: rest, flagsValues =>
    if flgRequired && !(lookupFlagValue flagsValues flg).IsProvided then
      .error (.requiredFlagMissing flg)
    else checkRequiredFlags rest flagsValues

/-- The additional-flags pass of `ValidateFlags`: iterate the supplied
flag map; a provided flag that is neither true in the required map nor
true in the optional map is a fatal unsupported-flag error. -/
def checkAdditionalFlags (reg : Registry) : List (String × FlagValue) →
    Except FatalMsg Unit
  | [] => .ok ()
  | (flg, flgVal) :: rest =>
    if flgVal.IsProvided && !lookupBool reg.flags.RequiredFlags flg
        && !lookupBool reg.flags.OptionalFlags flg then
      .error (.notSupportedFlag flg)
    else checkAdditionalFlags reg rest

/-- Flag validation (Go func `ValidateFlags`) against a given descriptor:
the required-flags pass runs first, and only when it finishes without a
fatal error does the additional-flags pass run. -/
def ValidateFlags (reg : Registry) (flagsValues : List (String × FlagValue)) :
    Except FatalMsg Unit :=
  match checkRequiredFlags reg.flags.RequiredFlags flagsValues with
  | .error e => .error e
  | .ok _ => checkAdditionalFlags reg flagsValues

/-- Flag validation at the module state: `ValidateFlags` dereferences
`registries[optionToExec]`, so the result is `none` (a nil-pointer panic)
when the selection is not a key of the catalog. -/
def ValidateFlagsRun (s : RegistryState) (flagsValues : List (String × FlagValue)) :
    Option (Except FatalMsg Unit) :=
  (lookupReg s.registries s.optionToExec).map (fun reg => ValidateFlags reg flagsValues)

/-- Dispatch record for the `Read` capability: the name of the descriptor
whose capability was invoked and the flag map passed (`none` in
interactive mode). -/
def ReadInputsInteractive (s : RegistryState) :
    Option (String × Option (List (String × FlagValue))) :=
  match lookupReg s.registries s.optionToExec with
  | none => none
  | some reg => some (reg.Name, none)

/-- Non-interactive input collection (Go func `ReadInputsFromFlags`):
dispatches the supplied flag map to the selected descriptor; `none` is
the nil-pointer panic when no catalog entry matches the selection. -/
def ReadInputsFromFlags (s : RegistryState) (flagValues : List (String × FlagValue)) :
    Option (String × Option (List (String × FlagValue))) :=
  match lookupReg s.registries s.optionToExec with
  | none => none
  | some reg => some (reg.Name, some flagValues)

/-- A decoded YAML value as produced by the YAML collaborator.  The Go
code decodes into a generic interface-keyed mapping; the keys this module
touches are all strings, so mapping keys are embedded as strings. -/
inductive YamlValue where
  | str : String → YamlValue
  | int : Int → YamlValue
  | bool : Bool → YamlValue
  | null : YamlValue
  | map : List (String × YamlValue) → YamlValue
  | seq : List YamlValue → YamlValue

/-- Lookup in a decoded YAML mapping (absent key yields the nil
interface, embedded as `none`). -/
def ymLookup : List (String × YamlValue) → String → Option YamlValue
  | [], _ => none
  | p :: rest, k => if p.1 = k then some p.2 else ymLookup rest k

/-- Assignment in a decoded YAML mapping: replace the entry when the key
is present, append otherwise. -/
def ymSet : List (String × YamlValue) → String → YamlValue → List (String × YamlValue)
  | [], k, v => [(k, v)]
  | p :: rest, k, v => if p.1 = k then (k, v) :: rest else p :: ymSet rest k v

/-- Modelled from the spec: the controller-config key holding the
registry type (`k8sUtils.CtrlConfigRegType`; the constant is declared in
the operator utils package, outside this module). -/
def CtrlConfigRegType : String := "registryType"

/-- Modelled from the spec: the controller-config key holding the
repository (`k8sUtils.CtrlConfigReg`; the constant is declared in the
operator utils package, outside this module). -/
def CtrlConfigReg : String := "repository"

/-- The two mutations `updateCtrlConfig` performs on the decoded config
map: assert that the entry at key data is a mapping (`none` embeds the
runtime panic of the failed Go interface type assertion, also hit when
the key is absent and the assertion runs on a nil interface), then set
the registry-type key and the repository key inside it.  The mutation is
in place in Go; purely, the data entry is replaced by the updated inner
mapping. -/
def setCtrlConfigs (m : List (String × YamlValue)) (registryType repository : String) :
    Option (List (String × YamlValue)) :=
  match ymLookup m "data" with
  | some (.map d) =>
      some (ymSet m "data"
        (.map (ymSet (ymSet d CtrlConfigRegType (.str registryType))
          CtrlConfigReg (.str repository))))
  | _ => none

/-- The external collaborators `updateCtrlConfig` calls, as one record:
the outcome of the cluster-CLI read of the controller config map
(`k8sUtils.GetCommandOutput`), the YAML decode and encode functions
(`yaml.Unmarshal`, `yaml.Marshal`), and the cluster-CLI apply
(`k8sUtils.K8sApplyFromStdin`, whose `some` result is a Go error). -/
structure Collaborators where
  getCtrlConfigMapYaml : Except String String
  unmarshal : String → Except String (List (String × YamlValue))
  marshal : List (String × YamlValue) → Except String String
  applyFromStdin : String → Option String

/-- Controller config update (Go func `updateCtrlConfig`): read the
config map, decode it, mutate the two data keys, re-encode, apply.  Each
collaborator failure is the corresponding fatal message; the overall
result is `none` exactly when the data type assertion panics. -/
def updateCtrlConfig (env : Collaborators) (registryType repository : String) :
    Option (Option FatalMsg) :=
  match env.getCtrlConfigMapYaml with
  | .error _ => some (some .readCtrlConfigFailed)
  | .ok controllerConfigMapYaml =>
    match env.unmarshal controllerConfigMapYaml with
    | .error _ => some (some .decodeCtrlConfigFailed)
    | .ok controllerConfigMap =>
      match setCtrlConfigs controllerConfigMap registryType repository with
      | none => none
      | some configured =>
        match env.marshal configured with
        | .error _ => some (some .renderCtrlConfigFailed)
        | .ok configuredConfigMap =>
          match env.applyFromStdin configuredConfigMap with
          | some _ => some (some .applyCtrlConfigFailed)
          | none => some none

/-- Observable collaborator events of `UpdateConfigsSecrets`: the
controller-config update completing for a registry type and repository,
and the credential-provisioning capability (`Run`) of a descriptor being
invoked. -/
inductive Event where
  | configUpdate (registryType repository : String)
  | runCredentials (name : String)
deriving Repr, DecidableEq

/-- Orchestration (Go func `UpdateConfigsSecrets`): dereference the
selected catalog entry and its `Repository` pointer (either being nil is
a panic, embedded as `none`), run `updateCtrlConfig` first, and only
when it completes without a fatal error invoke the `Run` capability.
The result is the event trace together with the fatal outcome. -/
def UpdateConfigsSecrets (env : Collaborators) (s : RegistryState) :
    Option (List Event × Option FatalMsg) :=
  match lookupReg s.registries s.optionToExec with
  | none => none
  | some reg =>
    match reg.Repository with
    | none => none
    | some repository =>
      match updateCtrlConfig env reg.Name repository with
      | none => none
      | some (some e) => some ([], some e)
      | some none =>
          some ([Event.configUpdate reg.Name repository,
                 Event.runCredentials reg.Name], none)

/-- Bool form of: entry `p` of the required-flags map marks its flag
required and the run does not provide that flag. -/
def requiredMissing (flagsValues : List (String × FlagValue)) (p : String × Bool) : Bool :=
  p.2 && !(lookupFlagValue flagsValues p.1).IsProvided

/-- Bool form of: entry `q` of the supplied flag map is provided and its
flag is true in neither the required nor the optional map of `reg`. -/
def unsupportedProvided (reg : Registry) (q : String × FlagValue) : Bool :=
  q.2.IsProvided && !lookupBool reg.flags.RequiredFlags q.1
    && !lookupBool reg.flags.OptionalFlags q.1

/-- A minimal descriptor with no flags, used to evaluate the catalog
operations at concrete inputs. -/
def sampleRegistry (name caption : String) (opt : Int) : Registry :=
  { Name := name, Caption := caption, Repository := none,
      flags := { RequiredFlags := [], OptionalFlags := [] }, Option := opt }

/-- A collaborator record whose decode yields a controller config map
with no data mapping; it drives the type assertion in `updateCtrlConfig`
into a runtime panic. -/
def noDataCollaborators : Collaborators :=
  { getCtrlConfigMapYaml := .ok "apiVersion: v1",
      unmarshal := fun _ => .ok [("apiVersion", YamlValue.str "v1")],
      marshal := fun _ => .ok "rendered",
      applyFromStdin := fun _ => none }

/-- A collaborator record whose decode yields a controller config map
holding an empty data mapping. -/
def withDataCollaborators : Collaborators :=
  { getCtrlConfigMapYaml := .ok "apiVersion: v1",
      unmarshal := fun _ => .ok [("data", YamlValue.map [])],
      marshal := fun _ => .ok "rendered",
      applyFromStdin := fun _ => none }

/-- A collaborator record whose cluster read fails, as when the api
operator is not installed. -/
def idleCollaborators : Collaborators :=
  { getCtrlConfigMapYaml := .error "not found",
      unmarshal := fun _ => .error "unreachable",
      marshal := fun _ => .error "unreachable",
      applyFromStdin := fun _ => some "unreachable" }

/-- The required-flags pass errors exactly at the first entry whose flag
is marked required but not provided, and succeeds when there is none. -/
theorem checkRequiredFlags_eq (req : List (String × Bool)) (fv : List (String × FlagValue)) :
    checkRequiredFlags req fv =
      match req.find? (requiredMissing fv) with
      | some p => Except.error (.requiredFlagMissing p.1)
      | none => Except.ok () := by
  induction req with
  | nil => rfl
  | cons p rest ih =>
    by_cases h : requiredMissing fv p
    · obtain ⟨flg, flgRequired⟩ := p
      rw [List.find?_cons_of_pos _ h]
      simp only [requiredMissing] at h
      simp only [checkRequiredFlags, h]
      rfl
    · obtain ⟨flg, flgRequired⟩ := p
      rw [List.find?_cons_of_neg _ h]
      simp only [Bool.not_eq_true, requiredMissing] at h
      simp only [checkRequiredFlags, h]
      simpa using ih

/-- The additional-flags pass errors exactly at the first provided entry
whose flag is supported by neither flag map, and succeeds when there is
none. -/
theorem checkAdditionalFlags_eq (reg : Registry) (fv : List (String × FlagValue)) :
    checkAdditionalFlags reg fv =
      match fv.find? (unsupportedProvided reg) with
      | some q => Except.error (.notSupportedFlag q.1)
      | none => Except.ok () := by
  induction fv with
  | nil => rfl
  | cons q rest ih =>
    by_cases h : unsupportedProvided reg q
    · obtain ⟨flg, flgVal⟩ := q
      rw [List.find?_cons_of_pos _ h]
      simp only [unsupportedProvided] at h
      simp only [checkAdditionalFlags, h]
      rfl
    · obtain ⟨flg, flgVal⟩ := q
      rw [List.find?_cons_of_neg _ h]
      simp only [Bool.not_eq_true, unsupportedProvided] at h
      simp only [checkAdditionalFlags, h]
      simpa using ih

/-- C1: with some required flag of the selected descriptor absent or not
provided, `ValidateFlags` fails with a missing-required error naming such
a flag; with every required flag provided but some provided flag outside
both the required and the optional set, it fails with an unsupported-flag
error naming such a flag; with every required flag provided and every
provided flag supported, it succeeds silently. -/
theorem validateFlags_characterization (reg : Registry) (fv : List (String × FlagValue)) :
    ((∃ p ∈ reg.flags.RequiredFlags, requiredMissing fv p = true) →
       ∃ flg, (∃ p ∈ reg.flags.RequiredFlags, p.1 = flg ∧ requiredMissing fv p = true) ∧
         ValidateFlags reg fv = .error (.requiredFlagMissing flg)) ∧
    ((∀ p ∈ reg.flags.RequiredFlags, requiredMissing fv p = false) →
     (∃ q ∈ fv, unsupportedProvided reg q = true) →
       ∃ flg, (∃ q ∈ fv, q.1 = flg ∧ unsupportedProvided reg q = true) ∧
         ValidateFlags reg fv = .error (.notSupportedFlag flg)) ∧
    ((∀ p ∈ reg.flags.RequiredFlags, requiredMissing fv p = false) →
     (∀ q ∈ fv, unsupportedProvided reg q = false) →
       ValidateFlags reg fv = .ok ()) := by
  refine ⟨?_, ?_, ?_⟩
  · rintro ⟨p, hp, hmiss⟩
    unfold ValidateFlags
    rw [checkRequiredFlags_eq]
    cases hfind : reg.flags.RequiredFlags.find? (requiredMissing fv) with
    | none =>
      exact absurd hmiss (by simpa using List.find?_eq_none.mp hfind _ hp)
    | some p0 =>
      exact ⟨p0.1, ⟨p0, List.mem_of_find?_eq_some hfind, rfl, List.find?_some hfind⟩, rfl⟩
  · rintro hreq ⟨q, hq, hbad⟩
    have hnone : reg.flags.RequiredFlags.find? (requiredMissing fv) = none :=
      List.find?_eq_none.mpr (fun p hp => by simp [hreq p hp])
    unfold ValidateFlags
    rw [checkRequiredFlags_eq, hnone]
    rw [checkAdditionalFlags_eq]
    cases hfind : fv.find? (unsupportedProvided reg) with
    | none =>
      exact absurd hbad (by simpa using List.find?_eq_none.mp hfind _ hq)
    | some q0 =>
      exact ⟨q0.1, ⟨q0, List.mem_of_find?_eq_some hfind, rfl, List.find?_some hfind⟩, rfl⟩
  · intro hreq hadd
    have hnone : reg.flags.RequiredFlags.find? (requiredMissing fv) = none :=
      List.find?_eq_none.mpr (fun p hp => by simp [hreq p hp])
    have hnone2 : fv.find? (unsupportedProvided reg) = none :=
      List.find?_eq_none.mpr (fun q hq => by simp [hadd q hq])
    unfold ValidateFlags
    rw [checkRequiredFlags_eq, hnone, checkAdditionalFlags_eq, hnone2]

/-- Witness for C1: descriptor requiring a and b with optional c; the map
providing exactly a and b passes validation. -/
theorem validateFlags_characterization_witness :
    ValidateFlags
      { Name := "docker-hub", Caption := "Docker Hub", Repository := none,
        flags := { RequiredFlags := [("a", true), ("b", true)],
                   OptionalFlags := [("c", true)] },
        Option := 1 }
      [("a", ⟨"u", true⟩), ("b", ⟨"p", true⟩)] = .ok () :=
  (validateFlags_characterization
      { Name := "docker-hub", Caption := "Docker Hub", Repository := none,
        flags := { RequiredFlags := [("a", true), ("b", true)],
                   OptionalFlags := [("c", true)] },
        Option := 1 }
      [("a", ⟨"u", true⟩), ("b", ⟨"p", true⟩)]).2.2
    (by decide) (by decide)

/-- C2: when the flag map has both a missing required flag and a provided
unsupported flag, `ValidateFlags` reports the missing-required error and
never the unsupported-flag error: the required pass runs first. -/
theorem validateFlags_required_preempts (reg : Registry) (fv : List (String × FlagValue))
    (hmiss : ∃ p ∈ reg.flags.RequiredFlags, requiredMissing fv p = true)
    (hadd : ∃ q ∈ fv, unsupportedProvided reg q = true) :
    (∃ flg, ValidateFlags reg fv = .error (.requiredFlagMissing flg)) ∧
    ∀ flg, ValidateFlags reg fv ≠ .error (.notSupportedFlag flg) := by
  obtain ⟨p, hp, hmissp⟩ := hmiss
  obtain ⟨-, -, -⟩ := hadd
  have hsome : (reg.flags.RequiredFlags.find? (requiredMissing fv)).isSome := by
    rw [List.find?_isSome]
    exact ⟨p, hp, hmissp⟩
  obtain ⟨p0, hfind⟩ := Option.isSome_iff_exists.mp hsome
  have hval : ValidateFlags reg fv = .error (.requiredFlagMissing p0.1) := by
    unfold ValidateFlags
    rw [checkRequiredFlags_eq, hfind]
  exact ⟨⟨p0.1, hval⟩, fun flg h => by rw [hval] at h; simp at h⟩

/-- Witness for C2: flag b is required but absent while provided flag d
is unsupported; the reported error is the missing-required one for b. -/
theorem validateFlags_required_preempts_witness :
    (∃ flg, ValidateFlags
      { Name := "docker-hub", Caption := "Docker Hub", Repository := none,
        flags := { RequiredFlags := [("a", true), ("b", true)],
                   OptionalFlags := [("c", true)] },
        Option := 1 }
      [("a", ⟨"u", true⟩), ("d", ⟨"x", true⟩)] = .error (.requiredFlagMissing flg)) ∧
    ∀ flg, ValidateFlags
      { Name := "docker-hub", Caption := "Docker Hub", Repository := none,
        flags := { RequiredFlags := [("a", true), ("b", true)],
                   OptionalFlags := [("c", true)] },
        Option := 1 }
      [("a", ⟨"u", true⟩), ("d", ⟨"x", true⟩)] ≠ .error (.notSupportedFlag flg) :=
  validateFlags_required_preempts
    { Name := "docker-hub", Caption := "Docker Hub", Repository := none,
      flags := { RequiredFlags := [("a", true), ("b", true)],
                 OptionalFlags := [("c", true)] },
      Option := 1 }
    [("a", ⟨"u", true⟩), ("d", ⟨"x", true⟩)]
    ⟨("b", true), by decide⟩ ⟨("d", ⟨"x", true⟩), by decide⟩

/-- Catalog lookup misses exactly the keys that are not in the map. -/
theorem lookupReg_eq_none (m : List (Int × Registry)) (k : Int) :
    lookupReg m k = none ↔ k ∉ m.map Prod.fst := by
  induction m with
  | nil => simp [lookupReg]
  | cons p rest ih =>
    by_cases h : p.1 = k
    · simp [lookupReg, h]
    · simp [lookupReg, h, ih, Ne.symm h]

/-- Go map assignment at an absent key appends the new entry. -/
theorem mapInsert_absent (m : List (Int × Registry)) (k : Int) (v : Registry)
    (h : lookupReg m k = none) : mapInsert m k v = m ++ [(k, v)] := by
  induction m with
  | nil => rfl
  | cons p rest ih =>
    by_cases hp : p.1 = k
    · simp [lookupReg, hp] at h
    · simp only [lookupReg, hp, if_neg hp, ite_false] at h
      simp [mapInsert, hp, ih h]

/-- Looking up the key just assigned yields the assigned descriptor. -/
theorem lookupReg_mapInsert_self (m : List (Int × Registry)) (k : Int) (v : Registry) :
    lookupReg (mapInsert m k v) k = some v := by
  induction m with
  | nil => simp [mapInsert, lookupReg]
  | cons p rest ih =>
    by_cases hp : p.1 = k
    · simp [mapInsert, hp, lookupReg]
    · simp [mapInsert, hp, lookupReg, ih]

/-- Any sequence of `add` calls preserves positivity and uniqueness of the
catalog keys. -/
theorem addAllFrom_keys (rs : List Registry) :
    ∀ m : List (Int × Registry),
      (∀ k ∈ m.map Prod.fst, 1 ≤ k) → (m.map Prod.fst).Nodup →
      (∀ k ∈ (addAllFrom m rs).1.map Prod.fst, 1 ≤ k) ∧
        ((addAllFrom m rs).1.map Prod.fst).Nodup := by
  induction rs with
  | nil => exact fun m hpos hnd => ⟨hpos, hnd⟩
  | cons r rs ih =>
    intro m hpos hnd
    by_cases h1 : r.Option < 1
    · have hadd : add m r = (m, some (.optionNotPositive r.Name)) := by
        simp [add, h1]
      simp only [addAllFrom, hadd]
      exact ⟨hpos, hnd⟩
    · by_cases h2 : (lookupReg m r.Option).isSome
      · have hadd : add m r = (m, some (.duplicateOptions r.Name)) := by
          simp [add, h1, h2]
        simp only [addAllFrom, hadd]
        exact ⟨hpos, hnd⟩
      · have hnone : lookupReg m r.Option = none :=
          Option.not_isSome_iff_eq_none.mp h2
        have hadd : add m r = (m ++ [(r.Option, r)], none) := by
          simp [add, h1, h2, mapInsert_absent m r.Option r hnone]
        simp only [addAllFrom, hadd]
        apply ih
        · intro k hk
          rw [List.map_append] at hk
          rcases List.mem_append.mp hk with hk | hk
          · exact hpos k hk
          · have : k = r.Option := by simpa using hk
            omega
        · have hnotin : r.Option ∉ m.map Prod.fst := (lookupReg_eq_none m r.Option).mp hnone
          rw [List.map_append, List.nodup_append]
          refine ⟨hnd, by simp, ?_⟩
          intro a ha hb
          have : a = r.Option := by simpa using hb
          subst this
          exact hnotin ha

/-- C3: `add` fails with the catalog unchanged on a non-positive option
and on an occupied option slot, succeeds otherwise with the descriptor
retrievable at its option, and consequently every catalog built by a
sequence of `add` calls from the empty catalog has only positive,
pairwise-distinct option keys. -/
theorem add_characterization (m : List (Int × Registry)) (r : Registry) (rs : List Registry) :
    (r.Option < 1 → add m r = (m, some (.optionNotPositive r.Name))) ∧
    (1 ≤ r.Option → (lookupReg m r.Option).isSome →
       add m r = (m, some (.duplicateOptions r.Name))) ∧
    (1 ≤ r.Option → lookupReg m r.Option = none →
       add m r = (m ++ [(r.Option, r)], none) ∧
       lookupReg (add m r).1 r.Option = some r) ∧
    ((∀ k ∈ (addAll rs).1.map Prod.fst, 1 ≤ k) ∧ ((addAll rs).1.map Prod.fst).Nodup) := by
  refine ⟨?_, ?_, ?_, ?_⟩
  · intro h1
    simp [add, h1]
  · intro h1 h2
    have h1n : ¬ r.Option < 1 := by omega
    simp [add, h1n, h2]
  · intro h1 h2
    have h1n : ¬ r.Option < 1 := by omega
    have h2n : ¬ (lookupReg m r.Option).isSome = true := by simp [h2]
    constructor
    · simp [add, h1n, h2n, mapInsert_absent m r.Option r h2]
    · simp [add, h1n, h2n, lookupReg_mapInsert_self]
  · exact addAllFrom_keys rs [] (by simp) (by simp)

/-- Witness for C3: a duplicate positive option is rejected, an option of
zero is rejected, and a fresh positive option is stored and retrievable. -/
theorem add_characterization_witness :
    (add [((1 : Int), sampleRegistry "docker-hub" "Docker Hub" 1)]
        (sampleRegistry "acr" "ACR" 1)
      = ([((1 : Int), sampleRegistry "docker-hub" "Docker Hub" 1)],
          some (.duplicateOptions "acr"))) ∧
    (add [] (sampleRegistry "acr" "ACR" 0) = ([], some (.optionNotPositive "acr"))) ∧
    lookupReg (add [((1 : Int), sampleRegistry "docker-hub" "Docker Hub" 1)]
        (sampleRegistry "acr" "ACR" 2)).1 2 = some (sampleRegistry "acr" "ACR" 2) :=
  ⟨(add_characterization [((1 : Int), sampleRegistry "docker-hub" "Docker Hub" 1)]
      (sampleRegistry "acr" "ACR" 1) []).2.1 (by decide) (by decide),
   (add_characterization [] (sampleRegistry "acr" "ACR" 0) []).1 (by decide),
   ((add_characterization [((1 : Int), sampleRegistry "docker-hub" "Docker Hub" 1)]
      (sampleRegistry "acr" "ACR" 2) []).2.2.1 (by decide) (by decide)).2⟩

/-- The scan loop of `SetRegistry` stops at a matching entry and stores
its option. -/
theorem setRegistryLoop_found (s : RegistryState) (t : String)
    (l : List (Int × Registry)) (h : ∃ p ∈ l, p.2.Name = t) :
    ∃ p ∈ l, p.2.Name = t ∧
      setRegistryLoop s t l = ({ s with optionToExec := p.1 }, none) := by
  induction l with
  | nil => simp at h
  | cons p rest ih =>
    obtain ⟨opt, reg⟩ := p
    by_cases hn : reg.Name = t
    · exact ⟨(opt, reg), List.mem_cons_self _ _, hn, by simp [setRegistryLoop, hn]⟩
    · obtain ⟨q, hq, hqt⟩ := h
      rcases List.mem_cons.mp hq with rfl | hq
      · exact absurd hqt hn
      · obtain ⟨q2, hq2, hqt2, heq⟩ := ih ⟨q, hq, hqt⟩
        exact ⟨q2, List.mem_cons_of_mem _ hq2, hqt2,
          by simpa [setRegistryLoop, hn] using heq⟩

/-- The scan loop of `SetRegistry` falls through to the fatal error when
no entry matches, leaving the state untouched. -/
theorem setRegistryLoop_not_found (s : RegistryState) (t : String)
    (l : List (Int × Registry)) (h : ∀ p ∈ l, p.2.Name ≠ t) :
    setRegistryLoop s t l = (s, some (.invalidRegistryType t)) := by
  induction l with
  | nil => rfl
  | cons p rest ih =>
    obtain ⟨opt, reg⟩ := p
    have hn : reg.Name ≠ t := h (opt, reg) (List.mem_cons_self _ _)
    simp only [setRegistryLoop, if_neg hn]
    exact ih (fun q hq => h q (List.mem_cons_of_mem _ hq))

/-- C7: when some catalog entry has the requested name, `SetRegistry`
stores the option of a matching entry; when none has, it terminates with
the invalid-registry-type fatal error and the prior selection (indeed the
whole state) is unchanged. -/
theorem setRegistry_characterization (s : RegistryState) (registryType : String) :
    ((∃ p ∈ s.registries, p.2.Name = registryType) →
       ∃ p ∈ s.registries, p.2.Name = registryType ∧
         SetRegistry s registryType = ({ s with optionToExec := p.1 }, none)) ∧
    ((∀ p ∈ s.registries, p.2.Name ≠ registryType) →
       SetRegistry s registryType = (s, some (.invalidRegistryType registryType))) :=
  ⟨fun h => setRegistryLoop_found s registryType s.registries h,
   fun h => setRegistryLoop_not_found s registryType s.registries h⟩

/-- Witness for C7: on a one-entry catalog, an unknown name yields the
invalid-registry-type fatal error with the state unchanged, and the
registered name selects its option. -/
theorem setRegistry_characterization_witness :
    (SetRegistry
        { registries := [((1 : Int), sampleRegistry "docker-hub" "Docker Hub" 1)],
            optionToExec := 0 } "x"
      = ({ registries := [((1 : Int), sampleRegistry "docker-hub" "Docker Hub" 1)],
            optionToExec := 0 }, some (.invalidRegistryType "x"))) ∧
    ∃ p ∈ [((1 : Int), sampleRegistry "docker-hub" "Docker Hub" 1)],
      p.2.Name = "docker-hub" ∧
      SetRegistry
          { registries := [((1 : Int), sampleRegistry "docker-hub" "Docker Hub" 1)],
              optionToExec := 0 } "docker-hub"
        = ({ registries := [((1 : Int), sampleRegistry "docker-hub" "Docker Hub" 1)],
              optionToExec := p.1 }, none) :=
  ⟨(setRegistry_characterization
      { registries := [((1 : Int), sampleRegistry "docker-hub" "Docker Hub" 1)],
          optionToExec := 0 } "x").2 (by decide),
   (setRegistry_characterization
      { registries := [((1 : Int), sampleRegistry "docker-hub" "Docker Hub" 1)],
          optionToExec := 0 } "docker-hub").1 ⟨((1 : Int), sampleRegistry "docker-hub" "Docker Hub" 1), by decide, by decide⟩⟩

/-- A successful catalog lookup comes from an entry of the catalog. -/
theorem lookupReg_mem (m : List (Int × Registry)) (k : Int) (r : Registry)
    (h : lookupReg m k = some r) : (k, r) ∈ m := by
  induction m with
  | nil => simp [lookupReg] at h
  | cons p rest ih =>
    by_cases hp : p.1 = k
    · simp only [lookupReg, if_pos hp] at h
      obtain ⟨p1, p2⟩ := p
      cases hp
      cases h
      exact List.mem_cons_self _ _
    · simp only [lookupReg, if_neg hp] at h
      exact List.mem_cons_of_mem _ (ih h)

/-- With pairwise-distinct keys, every catalog entry is what lookup at
its key returns. -/
theorem lookupReg_of_mem (m : List (Int × Registry)) (k : Int) (r : Registry)
    (hnd : (m.map Prod.fst).Nodup) (h : (k, r) ∈ m) : lookupReg m k = some r := by
  induction m with
  | nil => simp at h
  | cons p rest ih =>
    rcases List.mem_cons.mp h with rfl | h
    · simp [lookupReg]
    · have hk : p.1 ≠ k := by
        intro hpk
        have : k ∈ rest.map Prod.fst := List.mem_map_of_mem Prod.fst h
        rw [List.map_cons, List.nodup_cons, hpk] at hnd
        exact hnd.1 this
      simp only [lookupReg, if_neg hk]
      exact ih (List.map_cons Prod.fst p rest ▸ hnd).of_cons h

/-- With pairwise-distinct keys, catalog lookup is invariant under
reordering the underlying entry list (Go map iteration order). -/
theorem lookupReg_perm (m1 m2 : List (Int × Registry))
    (hnd : (m1.map Prod.fst).Nodup) (hp : m1.Perm m2) (k : Int) :
    lookupReg m1 k = lookupReg m2 k := by
  have hnd2 : (m2.map Prod.fst).Nodup := ((hp.map Prod.fst).nodup_iff).mp hnd
  cases h : lookupReg m1 k with
  | some r =>
    exact (lookupReg_of_mem m2 k r hnd2 (hp.mem_iff.mp (lookupReg_mem m1 k r h))).symm
  | none =>
    rw [eq_comm, lookupReg_eq_none]
    intro hmem
    exact (lookupReg_eq_none m1 k).mp h (((hp.map Prod.fst).mem_iff).mpr hmem)

/-- The sorted key list enumerates exactly the catalog keys. -/
theorem sortedKeys_perm (m : List (Int × Registry)) :
    (sortedKeys m).Perm (m.map Prod.fst) :=
  List.perm_insertionSort (· ≤ ·) (m.map Prod.fst)

/-- The sorted key list is ascending. -/
theorem sortedKeys_sorted (m : List (Int × Registry)) :
    (sortedKeys m).Sorted (· ≤ ·) :=
  List.sorted_insertionSort (· ≤ ·) (m.map Prod.fst)

/-- With pairwise-distinct keys, the sorted key list is strictly
ascending. -/
theorem sortedKeys_strict_sorted (m : List (Int × Registry))
    (hnd : (m.map Prod.fst).Nodup) : (sortedKeys m).Sorted (· < ·) :=
  List.Sorted.lt_of_le (sortedKeys_sorted m)
    ((sortedKeys_perm m).nodup_iff.mpr hnd)

/-- The lines `ChooseRegistryInteractive` prints do not depend on the
outcome of the read collaborator. -/
theorem chooseRegistry_output (s : RegistryState)
    (readOption : Int → Int → Except String Int) :
    (ChooseRegistryInteractive s readOption).1 = "Choose registry type:" ::
      (sortedKeys s.registries).map
        (fun key => toString key ++ ": " ++ captionOf s.registries key) := by
  simp only [ChooseRegistryInteractive]
  cases readOption 1 ((sortedKeys s.registries).length : Int) with
  | error e => rfl
  | ok n => rfl

/-- C8: the listing printed by `ChooseRegistryInteractive` is the header
followed by one line of the form option: caption per registered
descriptor, enumerated in strictly ascending option order, and is the
same for any reordering of the underlying catalog entries. -/
theorem chooseRegistry_listing (s t : RegistryState)
    (ro1 ro2 : Int → Int → Except String Int)
    (hnd : (s.registries.map Prod.fst).Nodup)
    (hperm : s.registries.Perm t.registries) :
    (ChooseRegistryInteractive s ro1).1 = "Choose registry type:" ::
      (sortedKeys s.registries).map
        (fun key => toString key ++ ": " ++ captionOf s.registries key) ∧
    (sortedKeys s.registries).Perm (s.registries.map Prod.fst) ∧
    (sortedKeys s.registries).Sorted (· < ·) ∧
    (ChooseRegistryInteractive s ro1).1 = (ChooseRegistryInteractive t ro2).1 := by
  have hkeys : sortedKeys s.registries = sortedKeys t.registries :=
    List.eq_of_perm_of_sorted
      (((sortedKeys_perm s.registries).trans (hperm.map Prod.fst)).trans
        (sortedKeys_perm t.registries).symm)
      (sortedKeys_sorted s.registries) (sortedKeys_sorted t.registries)
  have hcap : ∀ k, captionOf s.registries k = captionOf t.registries k := by
    intro k
    unfold captionOf
    rw [lookupReg_perm s.registries t.registries hnd hperm k]
  refine ⟨chooseRegistry_output s ro1, sortedKeys_perm s.registries,
    sortedKeys_strict_sorted s.registries hnd, ?_⟩
  rw [chooseRegistry_output s ro1, chooseRegistry_output t ro2, hkeys]
  have hfun : (fun key => toString key ++ ": " ++ captionOf s.registries key) =
      (fun key => toString key ++ ": " ++ captionOf t.registries key) :=
    funext (fun key => by rw [hcap key])
  rw [hfun]

/-- Witness for C8: a two-entry catalog listed from either entry order
prints the header and the captions in ascending option order. -/
theorem chooseRegistry_listing_witness :
    (ChooseRegistryInteractive
        { registries := [((2 : Int), sampleRegistry "acr" "ACR" 2),
            ((1 : Int), sampleRegistry "docker-hub" "Docker Hub" 1)],
            optionToExec := 0 } (fun _ _ => .error "eof")).1
      = "Choose registry type:" ::
        (sortedKeys [((2 : Int), sampleRegistry "acr" "ACR" 2),
            ((1 : Int), sampleRegistry "docker-hub" "Docker Hub" 1)]).map
          (fun key => toString key ++ ": " ++
            captionOf [((2 : Int), sampleRegistry "acr" "ACR" 2),
              ((1 : Int), sampleRegistry "docker-hub" "Docker Hub" 1)] key) ∧
    (sortedKeys [((2 : Int), sampleRegistry "acr" "ACR" 2),
        ((1 : Int), sampleRegistry "docker-hub" "Docker Hub" 1)]).Perm
      ([((2 : Int), sampleRegistry "acr" "ACR" 2),
        ((1 : Int), sampleRegistry "docker-hub" "Docker Hub" 1)].map Prod.fst) ∧
    (sortedKeys [((2 : Int), sampleRegistry "acr" "ACR" 2),
        ((1 : Int), sampleRegistry "docker-hub" "Docker Hub" 1)]).Sorted (· < ·) ∧
    (ChooseRegistryInteractive
        { registries := [((2 : Int), sampleRegistry "acr" "ACR" 2),
            ((1 : Int), sampleRegistry "docker-hub" "Docker Hub" 1)],
            optionToExec := 0 } (fun _ _ => .error "eof")).1
      = (ChooseRegistryInteractive
          { registries := [((1 : Int), sampleRegistry "docker-hub" "Docker Hub" 1),
              ((2 : Int), sampleRegistry "acr" "ACR" 2)],
              optionToExec := 0 } (fun _ _ => .ok 1)).1 :=
  chooseRegistry_listing
    { registries := [((2 : Int), sampleRegistry "acr" "ACR" 2),
        ((1 : Int), sampleRegistry "docker-hub" "Docker Hub" 1)],
        optionToExec := 0 }
    { registries := [((1 : Int), sampleRegistry "docker-hub" "Docker Hub" 1),
        ((2 : Int), sampleRegistry "acr" "ACR" 2)],
        optionToExec := 0 }
    (fun _ _ => .error "eof") (fun _ _ => .ok 1)
    (by decide) (by decide)

/-- C6: under the contract of the read collaborator (a successful read is
within the bounds it was given), `ChooseRegistryInteractive` only ever
stores a selection within 1 and the number of registered descriptors and
leaves the catalog untouched, and on a failed read it terminates with the
whole state unchanged. -/
theorem chooseRegistry_selection (s : RegistryState)
    (readOption : Int → Int → Except String Int)
    (hro : ∀ n, readOption 1 ((sortedKeys s.registries).length : Int) = .ok n →
       1 ≤ n ∧ n ≤ ((sortedKeys s.registries).length : Int)) :
    ((ChooseRegistryInteractive s readOption).2.2 = none →
       1 ≤ (ChooseRegistryInteractive s readOption).2.1.optionToExec ∧
       (ChooseRegistryInteractive s readOption).2.1.optionToExec ≤ (s.registries.length : Int) ∧
       (ChooseRegistryInteractive s readOption).2.1.registries = s.registries) ∧
    ((ChooseRegistryInteractive s readOption).2.2.isSome →
       (ChooseRegistryInteractive s readOption).2.1 = s) := by
  have hlen : (sortedKeys s.registries).length = s.registries.length := by
    simpa using (sortedKeys_perm s.registries).length_eq
  simp only [ChooseRegistryInteractive]
  cases h : readOption 1 ((sortedKeys s.registries).length : Int) with
  | error e =>
    exact ⟨fun hc => by simp at hc, fun _ => rfl⟩
  | ok n =>
    obtain ⟨h1, h2⟩ := hro n h
    rw [hlen] at h2
    exact ⟨fun _ => ⟨h1, h2, rfl⟩, fun hc => by simp at hc⟩

/-- Witness for C6: a read collaborator returning 1 on a one-entry
catalog stores the selection 1, within range. -/
theorem chooseRegistry_selection_witness :
    1 ≤ (ChooseRegistryInteractive
        { registries := [((1 : Int), sampleRegistry "docker-hub" "Docker Hub" 1)],
            optionToExec := 0 } (fun _ _ => .ok 1)).2.1.optionToExec ∧
    (ChooseRegistryInteractive
        { registries := [((1 : Int), sampleRegistry "docker-hub" "Docker Hub" 1)],
            optionToExec := 0 } (fun _ _ => .ok 1)).2.1.optionToExec ≤
      (([((1 : Int), sampleRegistry "docker-hub" "Docker Hub" 1)] :
          List (Int × Registry)).length : Int) ∧
    (ChooseRegistryInteractive
        { registries := [((1 : Int), sampleRegistry "docker-hub" "Docker Hub" 1)],
            optionToExec := 0 } (fun _ _ => .ok 1)).2.1.registries
      = [((1 : Int), sampleRegistry "docker-hub" "Docker Hub" 1)] :=
  (chooseRegistry_selection
    { registries := [((1 : Int), sampleRegistry "docker-hub" "Docker Hub" 1)],
        optionToExec := 0 } (fun _ _ => .ok 1)
    (fun n h => by injection h with h; subst h; decide)).1 (by decide)

/-- Looking up the key just assigned in a YAML mapping yields the
assigned value. -/
theorem ymLookup_ymSet_self (m : List (String × YamlValue)) (k : String) (v : YamlValue) :
    ymLookup (ymSet m k v) k = some v := by
  induction m with
  | nil => simp [ymSet, ymLookup]
  | cons p rest ih =>
    by_cases hp : p.1 = k
    · simp [ymSet, hp, ymLookup]
    · simp [ymSet, hp, ymLookup, ih]

/-- Assigning one key of a YAML mapping leaves every other key unchanged. -/
theorem ymLookup_ymSet_other (m : List (String × YamlValue)) (k k2 : String)
    (v : YamlValue) (h : k2 ≠ k) : ymLookup (ymSet m k v) k2 = ymLookup m k2 := by
  have hk2 : ¬ k = k2 := fun hx => h hx.symm
  induction m with
  | nil => simp [ymSet, ymLookup, hk2]
  | cons p rest ih =>
    by_cases hp : p.1 = k
    · have hpk2 : ¬ p.1 = k2 := by rw [hp]; exact hk2
      simp only [ymSet, if_pos hp, ymLookup, if_neg hk2, if_neg hpk2]
    · simp only [ymSet, if_neg hp, ymLookup]
      by_cases hp2 : p.1 = k2
      · simp [hp2]
      · simp [hp2, ih]

/-- C4: on a decoded controller config map whose data entry is a mapping,
the mutation step of `updateCtrlConfig` produces the same map with only
the data entry replaced; inside the new data mapping the registry-type
key and the repository key hold the two arguments, every other data key
is unchanged, and every top-level key other than data is unchanged. -/
theorem updateCtrlConfig_frame (m d : List (String × YamlValue))
    (registryType repository : String)
    (hd : ymLookup m "data" = some (.map d)) :
    ∃ d2, setCtrlConfigs m registryType repository = some (ymSet m "data" (.map d2)) ∧
      ymLookup d2 CtrlConfigRegType = some (.str registryType) ∧
      ymLookup d2 CtrlConfigReg = some (.str repository) ∧
      (∀ k, k ≠ CtrlConfigRegType → k ≠ CtrlConfigReg → ymLookup d2 k = ymLookup d k) ∧
      ymLookup (ymSet m "data" (.map d2)) "data" = some (.map d2) ∧
      (∀ k, k ≠ "data" → ymLookup (ymSet m "data" (.map d2)) k = ymLookup m k) := by
  refine ⟨ymSet (ymSet d CtrlConfigRegType (.str registryType))
      CtrlConfigReg (.str repository), ?_, ?_, ?_, ?_, ?_, ?_⟩
  · unfold setCtrlConfigs
    rw [hd]
  · rw [ymLookup_ymSet_other _ _ _ _ (by decide), ymLookup_ymSet_self]
  · exact ymLookup_ymSet_self _ _ _
  · intro k h1 h2
    rw [ymLookup_ymSet_other _ _ _ _ h2, ymLookup_ymSet_other _ _ _ _ h1]
  · exact ymLookup_ymSet_self _ _ _
  · intro k h
    exact ymLookup_ymSet_other _ _ _ _ h

/-- Witness for C4: a config map with a data mapping holding one other
key keeps that key and its sibling top-level keys after the update. -/
theorem updateCtrlConfig_frame_witness :
    ∃ d2, setCtrlConfigs
        [("apiVersion", YamlValue.str "v1"),
          ("data", YamlValue.map [("x", YamlValue.str "y")]),
          ("kind", YamlValue.str "ConfigMap")] "docker-hub" "wso2"
      = some (ymSet
          [("apiVersion", YamlValue.str "v1"),
            ("data", YamlValue.map [("x", YamlValue.str "y")]),
            ("kind", YamlValue.str "ConfigMap")] "data" (.map d2)) ∧
      ymLookup d2 CtrlConfigRegType = some (.str "docker-hub") ∧
      ymLookup d2 CtrlConfigReg = some (.str "wso2") ∧
      (∀ k, k ≠ CtrlConfigRegType → k ≠ CtrlConfigReg →
        ymLookup d2 k = ymLookup [("x", YamlValue.str "y")] k) ∧
      ymLookup (ymSet
          [("apiVersion", YamlValue.str "v1"),
            ("data", YamlValue.map [("x", YamlValue.str "y")]),
            ("kind", YamlValue.str "ConfigMap")] "data" (.map d2)) "data"
        = some (.map d2) ∧
      (∀ k, k ≠ "data" → ymLookup (ymSet
          [("apiVersion", YamlValue.str "v1"),
            ("data", YamlValue.map [("x", YamlValue.str "y")]),
            ("kind", YamlValue.str "ConfigMap")] "data" (.map d2)) k
        = ymLookup [("apiVersion", YamlValue.str "v1"),
            ("data", YamlValue.map [("x", YamlValue.str "y")]),
            ("kind", YamlValue.str "ConfigMap")] k) :=
  updateCtrlConfig_frame
    [("apiVersion", YamlValue.str "v1"),
      ("data", YamlValue.map [("x", YamlValue.str "y")]),
      ("kind", YamlValue.str "ConfigMap")]
    [("x", YamlValue.str "y")] "docker-hub" "wso2" rfl

/-- C5: whenever `UpdateConfigsSecrets` runs on a selection whose
descriptor and repository exist, a fatal controller-config update leaves
the credential capability uninvoked, a successful one is followed by the
credential invocation, and in every defined trace the credential
invocation only ever occurs strictly after the completed config update. -/
theorem updateConfigsSecrets_order (env : Collaborators) (s : RegistryState)
    (reg : Registry) (repository : String)
    (hl : lookupReg s.registries s.optionToExec = some reg)
    (hr : reg.Repository = some repository) :
    (∀ e, updateCtrlConfig env reg.Name repository = some (some e) →
       UpdateConfigsSecrets env s = some ([], some e)) ∧
    (updateCtrlConfig env reg.Name repository = some none →
       UpdateConfigsSecrets env s =
         some ([Event.configUpdate reg.Name repository,
                Event.runCredentials reg.Name], none)) ∧
    (∀ tr fatal, UpdateConfigsSecrets env s = some (tr, fatal) →
       ∀ n, Event.runCredentials n ∈ tr →
         tr.head? = some (Event.configUpdate reg.Name repository) ∧
           Event.runCredentials n ∈ tr.tail) := by
  have key : UpdateConfigsSecrets env s =
      match updateCtrlConfig env reg.Name repository with
      | none => none
      | some (some e) => some ([], some e)
      | some none => some ([Event.configUpdate reg.Name repository,
          Event.runCredentials reg.Name], none) := by
    simp only [UpdateConfigsSecrets, hl, hr]
  refine ⟨?_, ?_, ?_⟩
  · intro e he
    rw [key, he]
  · intro he
    rw [key, he]
  · intro tr fatal htr n hn
    rw [key] at htr
    cases hcc : updateCtrlConfig env reg.Name repository with
    | none => rw [hcc] at htr; exact absurd htr (by simp)
    | some o =>
      cases o with
      | some e =>
        rw [hcc] at htr
        obtain ⟨rfl, -⟩ : tr = [] ∧ fatal = some e := by
          simpa [Prod.ext_iff] using htr.symm
        simp at hn
      | none =>
        rw [hcc] at htr
        obtain ⟨rfl, -⟩ : tr = [Event.configUpdate reg.Name repository,
            Event.runCredentials reg.Name] ∧ fatal = none := by
          simpa [Prod.ext_iff] using htr.symm
        refine ⟨rfl, ?_⟩
        simpa using hn

/-- Witness for C5: with collaborators that succeed end to end, the trace
is the config update followed by the credential invocation. -/
theorem updateConfigsSecrets_order_witness :
    UpdateConfigsSecrets
        { getCtrlConfigMapYaml := .ok "name: controller-config",
            unmarshal := fun _ => .ok [("data", YamlValue.map [])],
            marshal := fun _ => .ok "rendered",
            applyFromStdin := fun _ => none }
        { registries := [((1 : Int),
            { Name := "docker-hub", Caption := "Docker Hub",
                Repository := some "wso2", flags :=
                  { RequiredFlags := [], OptionalFlags := [] },
                Option := 1 })],
            optionToExec := 1 }
      = some ([Event.configUpdate "docker-hub" "wso2",
               Event.runCredentials "docker-hub"], none) :=
  (updateConfigsSecrets_order
    { getCtrlConfigMapYaml := .ok "name: controller-config",
        unmarshal := fun _ => .ok [("data", YamlValue.map [])],
        marshal := fun _ => .ok "rendered",
        applyFromStdin := fun _ => none }
    { registries := [((1 : Int),
        { Name := "docker-hub", Caption := "Docker Hub",
            Repository := some "wso2", flags :=
              { RequiredFlags := [], OptionalFlags := [] },
            Option := 1 })],
        optionToExec := 1 }
    { Name := "docker-hub", Caption := "Docker Hub",
        Repository := some "wso2", flags :=
          { RequiredFlags := [], OptionalFlags := [] },
        Option := 1 }
    "wso2" rfl rfl).2.1 rfl

/-- Counterexample to C9 as stated: when the decoded controller config
map has no data mapping, `updateCtrlConfig` fails by a runtime panic of
the interface type assertion, not through the fatal-error collaborator,
even though every collaborator call succeeded. -/
theorem updateCtrlConfig_panic_counterexample :
    updateCtrlConfig noDataCollaborators "docker-hub" "wso2" = none := rfl

/-- C9 amended: provided the decoded controller config map carries a data
mapping, every failure of `updateCtrlConfig` goes through the fatal-error
collaborator: the run always has a defined outcome, either silent success
or one of the fatal messages. -/
theorem updateCtrlConfig_fatal_via_collaborator (env : Collaborators)
    (registryType repository : String)
    (hdata : ∀ text m, env.getCtrlConfigMapYaml = .ok text →
       env.unmarshal text = .ok m → ∃ d, ymLookup m "data" = some (.map d)) :
    ∃ r, updateCtrlConfig env registryType repository = some r := by
  unfold updateCtrlConfig
  split
  · exact ⟨some .readCtrlConfigFailed, rfl⟩
  · rename_i text heq
    split
    · exact ⟨some .decodeCtrlConfigFailed, rfl⟩
    · rename_i m hu
      obtain ⟨d, hd⟩ := hdata text m heq hu
      split
      · rename_i hnone
        rw [setCtrlConfigs, hd] at hnone
        cases hnone
      · split
        · exact ⟨some .renderCtrlConfigFailed, rfl⟩
        · split
          · exact ⟨some .applyCtrlConfigFailed, rfl⟩
          · exact ⟨none, rfl⟩

/-- Witness for the amended C9: with a data mapping present the update
has a defined outcome. -/
theorem updateCtrlConfig_fatal_via_collaborator_witness :
    ∃ r, updateCtrlConfig withDataCollaborators "docker-hub" "wso2" = some r :=
  updateCtrlConfig_fatal_via_collaborator withDataCollaborators "docker-hub" "wso2"
    (fun text m _ h2 => ⟨[], by injection h2 with h; rw [← h]; rfl⟩)

/-- C10: without a selection that is a key of the catalog, each of the
four dispatching operations hits the nil-pointer dereference (no defined
outcome, no fatal-error collaborator); with such a selection the two
input readers and the flag validator are defined, while
`UpdateConfigsSecrets` additionally dereferences the Repository pointer
of the descriptor and panics when it is nil. -/
theorem selection_precondition (s : RegistryState)
    (fv : List (String × FlagValue)) (env : Collaborators) :
    (lookupReg s.registries s.optionToExec = none →
       ReadInputsInteractive s = none ∧ ReadInputsFromFlags s fv = none ∧
       ValidateFlagsRun s fv = none ∧ UpdateConfigsSecrets env s = none) ∧
    (∀ reg, lookupReg s.registries s.optionToExec = some reg →
       (ReadInputsInteractive s).isSome ∧ (ReadInputsFromFlags s fv).isSome ∧
       (ValidateFlagsRun s fv).isSome ∧
       (reg.Repository = none → UpdateConfigsSecrets env s = none)) := by
  constructor
  · intro h
    refine ⟨?_, ?_, ?_, ?_⟩
    · simp [ReadInputsInteractive, h]
    · simp [ReadInputsFromFlags, h]
    · simp [ValidateFlagsRun, h]
    · simp [UpdateConfigsSecrets, h]
  · intro reg h
    refine ⟨?_, ?_, ?_, ?_⟩
    · simp [ReadInputsInteractive, h]
    · simp [ReadInputsFromFlags, h]
    · simp [ValidateFlagsRun, h]
    · intro hrep
      simp [UpdateConfigsSecrets, h, hrep]

/-- Witness for C10: with an empty catalog and the zero selection, all
four operations panic; with a one-entry catalog selected at its key but a
nil Repository, `UpdateConfigsSecrets` panics. -/
theorem selection_precondition_witness :
    (ReadInputsInteractive { registries := [], optionToExec := 0 } = none ∧
     ReadInputsFromFlags { registries := [], optionToExec := 0 } [] = none ∧
     ValidateFlagsRun { registries := [], optionToExec := 0 } [] = none ∧
     UpdateConfigsSecrets idleCollaborators
       { registries := [], optionToExec := 0 } = none) ∧
    UpdateConfigsSecrets idleCollaborators
      { registries := [((1 : Int), sampleRegistry "docker-hub" "Docker Hub" 1)],
          optionToExec := 1 } = none :=
  ⟨(selection_precondition { registries := [], optionToExec := 0 } []
      idleCollaborators).1 rfl,
   ((selection_precondition
      { registries := [((1 : Int), sampleRegistry "docker-hub" "Docker Hub" 1)],
          optionToExec := 1 } [] idleCollaborators).2
      (sampleRegistry "docker-hub" "Docker Hub" 1) (by decide)).2.2.2 rfl⟩
